/-
Verification of the metric aggregation and ranking logic of the
health/food-access dashboard (`dashboard.py`).

The tabular data handled by the script is a geo-dataframe whose rows are
U.S. states and whose columns are named numeric metrics; individual
cells may be missing (NaN).  We model a cell as `Option ℚ` (`none` for
NaN/missing) and a dataframe as a column list plus a row list.  The
three computations under study are:

* `rankings d m n`   — `d[['STATE', m]].sort_values(by=m, ascending=False).head(n)`
  (pandas places NaN values last, `na_position='last'`, and raises
  `KeyError` on an unknown column);
* `stats d m`        — `d[m].describe()` restricted to the four fields the
  script reads (`mean`, `50%`, `min`, `max`), which skip NaN cells and
  raise `KeyError` on an unknown column;
* `get_priority_states d ms` — per-metric min-max normalization followed by
  the NaN-skipping row mean `normalized_scores.mean(axis=1)`, the in-place
  column assignment `data['aggregate_score'] = ...`, and a descending
  sort truncated to five rows.

pandas arithmetic facts reflected in the model: `min`/`max` of a series
skip NaN; `(v - min)/(max - min)` is NaN exactly when `v` is NaN or when
`max = min` (then the numerator of every defined cell is `0` and `0/0`
is NaN); `mean(axis=1)` averages the non-NaN entries of each row and is
NaN when there is none.  Mutation of the argument dataframe is made
explicit by returning the updated dataset alongside the ranking.
-/
import Mathlib

/-- A cell value: `none` models a missing value / NaN. -/
abbrev Val := Option ℚ

/-- One state's record: the `STATE` identifier and the named metric cells. -/
structure Row where
  state : String
  cells : List (String × Val)
deriving DecidableEq, Repr

/-- Reading a cell; a column absent from the row reads as missing. -/
def Row.get (r : Row) (c : String) : Val :=
  match r.cells.lookup c with
  | some v => v
  | none => none

/-- Writing one cell (pandas column assignment, restricted to one row). -/
def Row.setCell (r : Row) (c : String) (v : Val) : Row :=
  ⟨r.state, (c, v) :: r.cells.eraseP (fun p => p.1 == c)⟩

/-- The dataframe: named columns and the ordered state rows. -/
structure Dataset where
  columns : List String
  rows : List Row
deriving DecidableEq, Repr

/-- `data[c] = vs`: elementwise column assignment, adding the column when new. -/
def Dataset.setCol (d : Dataset) (c : String) (vs : List Val) : Dataset :=
  ⟨if c ∈ d.columns then d.columns else d.columns ++ [c],
   (d.rows.zip vs).map (fun p => p.1.setCell c p.2)⟩

/-- The column `d[m]` as the list of its cells, in row order. -/
def colVals (d : Dataset) (m : String) : List Val :=
  d.rows.map (fun r => r.get m)

/-- The defined (non-NaN) values of column `m`, in row order. -/
def definedVals (d : Dataset) (m : String) : List ℚ :=
  (colVals d m).reduceOption

/-- The column sorted ascending (used to read off order statistics). -/
def sortAsc (vs : List ℚ) : List ℚ :=
  vs.insertionSort (· ≤ ·)

/-- `Series.min` (NaN-skipping): `none` on an all-NaN column. -/
def minQ (vs : List ℚ) : Option ℚ :=
  (sortAsc vs).head?

/-- `Series.max` (NaN-skipping): `none` on an all-NaN column. -/
def maxQ (vs : List ℚ) : Option ℚ :=
  (sortAsc vs).getLast?

/-- `Series.mean` (NaN-skipping): `none` on an all-NaN column. -/
def meanQ (vs : List ℚ) : Option ℚ :=
  if vs.isEmpty then none else some (vs.sum / vs.length)

/-- `Series.median` / the `50%` row of `describe()` (linear interpolation):
the middle element for an odd count, the average of the two middle
elements for an even count, `none` on an all-NaN column. -/
def medianQ (vs : List ℚ) : Option ℚ :=
  if (sortAsc vs).length % 2 = 1 then (sortAsc vs).get? ((sortAsc vs).length / 2)
  else
    match (sortAsc vs).get? ((sortAsc vs).length / 2 - 1),
          (sortAsc vs).get? ((sortAsc vs).length / 2) with
    | some a, some b => some ((a + b) / 2)
    | _, _ => none

/-- `data[m].min()` over the dataset. -/
def colMin (d : Dataset) (m : String) : Option ℚ :=
  minQ (definedVals d m)

/-- `data[m].max()` over the dataset. -/
def colMax (d : Dataset) (m : String) : Option ℚ :=
  maxQ (definedVals d m)

/-- The four fields of `describe()` that the script reads. -/
structure Summary where
  mean : Val
  median : Val
  min : Val
  max : Val
deriving DecidableEq, Repr

/-- Line 82: `stats = merged_map[metric].describe()` together with the four
field reads on lines 85–91.  An unknown column raises `KeyError`
(modelled as `Except.error ()`); an all-NaN column yields NaN fields. -/
def stats (d : Dataset) (m : String) : Except Unit Summary :=
  if m ∈ d.columns then
    .ok ⟨meanQ (definedVals d m), medianQ (definedVals d m),
         minQ (definedVals d m), maxQ (definedVals d m)⟩
  else .error ()

/-- Sort order used by `sort_values(ascending=False)` on `(STATE, value)`
pairs with a defined value: descending by value. -/
def byScoreDesc (a b : String × ℚ) : Prop :=
  b.2 ≤ a.2

instance : DecidableRel byScoreDesc :=
  fun a b => inferInstanceAs (Decidable (b.2 ≤ a.2))

instance : IsTotal (String × ℚ) byScoreDesc :=
  ⟨fun a b => le_total b.2 a.2⟩

instance : IsTrans (String × ℚ) byScoreDesc :=
  ⟨fun _ _ _ h1 h2 => le_trans h2 h1⟩

/-- The projection `d[['STATE', m]]` as `(STATE, value)` pairs. -/
def statePairs (d : Dataset) (m : String) : List (String × Val) :=
  d.rows.map (fun r => (r.state, r.get m))

/-- The `(STATE, value)` pairs whose value is defined. -/
def definedPairs (ps : List (String × Val)) : List (String × ℚ) :=
  ps.filterMap (fun p => p.2.map (fun v => (p.1, v)))

/-- The `(STATE, value)` pairs whose value is NaN, in original order. -/
def undefPairs (ps : List (String × Val)) : List (String × Val) :=
  ps.filter (fun p => p.2.isNone)

/-- `d[['STATE', m]].sort_values(by=m, ascending=False).head(n)`: the rows
with a defined value for `m`, sorted descending by that value (stable),
followed by the rows with a missing value in original order
(`na_position='last'`), truncated to the first `n`. -/
def sort_values_head (d : Dataset) (m : String) (n : Nat) : List (String × Val) :=
  ((((definedPairs (statePairs d m)).insertionSort byScoreDesc).map
      (fun p => (p.1, some p.2))) ++ undefPairs (statePairs d m)).take n

/-- Lines 73–76: the `Top 10 States` table, generalized over the row count
`n` (the script passes `n = 10`).  An unknown column raises `KeyError`. -/
def rankings (d : Dataset) (m : String) (n : Nat) : Except Unit (List (String × Val)) :=
  if m ∈ d.columns then .ok (sort_values_head d m n) else .error ()

/-- Line 106: one cell of `(data[m] - data[m].min()) / (data[m].max() - data[m].min())`.
The quotient is NaN exactly when the cell is NaN or the column has
`max = min` (the numerator is then `0` for every defined cell, and
`0/0` is NaN); in particular a zero-variance column yields NaN for
every row, silently. -/
def normCell (d : Dataset) (m : String) (r : Row) : Val :=
  match r.get m, colMin d m, colMax d m with
  | some v, some mn, some mx => if mx = mn then none else some ((v - mn) / (mx - mn))
  | _, _, _ => none

/-- Line 107: `normalized_scores.mean(axis=1)` for one row — the mean of the
row's non-NaN normalized cells, NaN when there is none. -/
def rowScore (d : Dataset) (ms : List String) (r : Row) : Val :=
  meanQ (ms.filterMap (fun m => normCell d m r))

/-- Lines 102–112: normalize every requested metric over the dataset, write
the NaN-skipping row means into the new `aggregate_score` column of the
argument dataframe (an in-place mutation, returned here explicitly as
the first component), and return the five rows with the largest score.
A metric that is not a column raises `KeyError`. -/
def get_priority_states (d : Dataset) (ms : List String) :
    Except Unit (Dataset × List (String × Val)) :=
  if ∀ m ∈ ms, m ∈ d.columns then
    .ok (d.setCol "aggregate_score" (d.rows.map (rowScore d ms)),
      sort_values_head (d.setCol "aggregate_score" (d.rows.map (rowScore d ms)))
        "aggregate_score" 5)
  else .error ()

/-- Lines 98–99: the metric set fed to the priority computation. -/
def metrics_list : List String :=
  ["OBESITY_CrudePrev", "DIABETES_CrudePrev", "BPHIGH_CrudePrev",
   "PCT_LACCESS_POP15", "PCT_LACCESS_SNAP15"]

/-- Line 138: the hardcoded state list of the impact-analysis filter
`merged_map_extended['STATE'].isin(['MS', 'WV', 'LA', 'DE', 'AL'])`. -/
def impactStates : List String :=
  ["MS", "WV", "LA", "DE", "AL"]

/-- Taken from the specification's words (§4.1 `aggregateScore`), for
comparison with the source's `rowScore`: the metrics of the requested
set that the row actually has a value for — the claim's divisor is the
length of this list. -/
def definedMetrics (ms : List String) (r : Row) : List String :=
  ms.filter (fun m => (r.get m).isSome)

/-- Taken from the specification's words (§4.1 `aggregateScore`):
`normalized(row, m) = (value(row, m) - min_m) / (max_m - min_m)` with
`min_m`/`max_m` over the rows with a defined value for `m`, and no
value when the row misses `m`.  Unlike the source's `normCell` there is
no guard for `max_m = min_m`. -/
def specNormalized (d : Dataset) (m : String) (r : Row) : Val :=
  match r.get m, colMin d m, colMax d m with
  | some v, some mn, some mx => some ((v - mn) / (mx - mn))
  | _, _, _ => none

/-- Taken from the specification's words (§4.1 `aggregateScore`): the row's
score is the arithmetic mean of its available normalized metric values,
the divisor being the count of metrics defined for that row. -/
def specRowScore (d : Dataset) (ms : List String) (r : Row) : Val :=
  if definedMetrics ms r = [] then none
  else some (((definedMetrics ms r).map (fun m => (specNormalized d m r).getD 0)).sum
             / (definedMetrics ms r).length)

/-- A top-level statement of the script, reduced to the names it binds and
the global names its evaluation resolves (a called function's global
reads are attributed to the call site). -/
inductive Stmt where
  | assign (name : String) (reads : List String)
  | expr (reads : List String)
deriving DecidableEq, Repr

/-- The global names a statement reads. -/
def Stmt.readNames : Stmt → List String
  | .assign _ rs => rs
  | .expr rs => rs

/-- Evaluate the statements in order in an environment of bound names:
the first read of an unbound name aborts with that name (`NameError`). -/
def runScript : List Stmt → List String → Except String (List String)
  | [], env => .ok env
  | s :: rest, env =>
    match s.readNames.find? (fun n => !(env.contains n)) with
    | some n => .error n
    | none =>
      match s with
      | .assign x _ => runScript rest (x :: env)
      | .expr _ => runScript rest env

/-- Every name bound by some statement of the list. -/
def assignedNames : List Stmt → List String
  | [] => []
  | .assign x _ :: rest => x :: assignedNames rest
  | .expr _ :: rest => assignedNames rest

/-- The top-level statements of `dashboard.py`, in source order (the bodies
of the two `with` blocks run at top level; statements after the first
failing one only matter for `assignedNames`). -/
def dashboardScript : List Stmt :=
  [ .assign "st" [],                                                      -- line 1
    .assign "components" [],                                              -- line 2
    .assign "gpd" [],                                                     -- line 3
    .assign "pd" [],                                                      -- line 4
    .assign "boto3" [],                                                   -- line 5
    .assign "Config" [],                                                  -- line 6
    .assign "AWS_ACCESS_KEY" ["st"],                                      -- line 8
    .assign "AWS_SECRET_KEY" ["st"],                                      -- line 9
    .assign "BUCKET_NAME" ["st"],                                         -- line 10
    .assign "s3" ["boto3", "AWS_ACCESS_KEY", "AWS_SECRET_KEY", "Config"], -- line 12
    .assign "load_map_from_s3" [],                                        -- line 18
    .assign "load_data_from_s3" [],                                       -- line 28
    .expr ["st"],                                                         -- line 39
    .expr ["st"],                                                         -- line 40
    .assign "merged_map" ["load_data_from_s3", "s3", "BUCKET_NAME", "gpd", "st"], -- line 43
    .assign "metrics" [],                                                 -- line 45
    .assign "col1" ["st"],                                                -- line 54
    .assign "col2" [],                                                    -- line 54
    .assign "metric" ["st", "metrics"],                                   -- line 57
    .assign "html_data" ["load_map_from_s3", "metric", "s3", "BUCKET_NAME", "st"], -- line 64
    .expr ["html_data", "components", "st"],                              -- lines 65-68
    .expr ["st"],                                                         -- line 72
    .assign "rankings" ["merged_map", "metric"],                          -- line 73
    .expr ["rankings", "metric"],                                         -- line 77
    .expr ["st", "rankings"],                                             -- line 78
    .expr ["st"],                                                         -- line 81
    .assign "stats" ["merged_map", "metric"],                             -- line 82
    .assign "col2_1" ["st"],                                              -- line 83
    .assign "col2_2" [],                                                  -- line 83
    .assign "col2_3" [],                                                  -- line 83
    .assign "col2_4" [],                                                  -- line 83
    .expr ["st", "stats"],                                                -- line 85
    .expr ["st", "stats"],                                                -- line 87
    .expr ["st", "stats"],                                                -- line 89
    .expr ["st", "stats"],                                                -- line 91
    .expr ["st"],                                                         -- line 94
    .expr ["st"],                                                         -- line 95
    .assign "metrics_list" [],                                            -- line 98
    .assign "get_priority_states" [],                                     -- line 102
    .assign "priority_states"
      ["get_priority_states", "merged_map_extended", "metrics_list", "pd"], -- line 114
    .assign "col_p1" ["st"],                                              -- line 117
    .assign "col_p2" [],                                                  -- line 117
    .expr ["st"],                                                         -- line 119
    .assign "priority_df" ["priority_states"],                            -- line 120
    .expr ["priority_df"],                                                -- line 121
    .expr ["st", "priority_df"],                                          -- line 122
    .expr ["st"],                                                         -- line 124
    .expr ["st"],                                                         -- line 125
    .expr ["st"],                                                         -- line 130
    .expr ["st"],                                                         -- line 131
    .assign "impact_col1" ["st"],                                         -- line 134
    .assign "impact_col2" [],                                             -- line 134
    .assign "impact_col3" [],                                             -- line 134
    .expr ["st"],                                                         -- line 137
    .assign "priority_states" ["merged_map_extended"],                    -- line 138
    .assign "food_metrics" ["priority_states"],                           -- line 141
    .assign "metric" ["food_metrics"],                                    -- line 146
    .assign "value" [],                                                   -- line 146
    .expr ["st", "metric", "value"],                                      -- line 147
    .expr ["st"],                                                         -- line 150
    .assign "demographics" ["priority_states"],                           -- line 151
    .assign "group" ["demographics"],                                     -- line 159
    .expr ["st", "group", "value"],                                       -- line 160
    .expr ["st"],                                                         -- line 164
    .assign "health_metrics" ["priority_states"],                         -- line 165
    .expr ["st", "metric", "value"],                                      -- line 170
    .expr ["st"] ]                                                        -- line 174

/- Concrete datasets used by the counterexamples and witnesses. -/

/-- Row `A` of `dC1`: `m1 = 0`, `m2 = 5`. -/
def rowA1 : Row := ⟨"A", [("m1", some 0), ("m2", some 5)]⟩

/-- Row `B` of `dC1`: `m1 = 10`, `m2 = 5`. -/
def rowB1 : Row := ⟨"B", [("m1", some 10), ("m2", some 5)]⟩

/-- Two rows, metric `m2` having zero variance while defined everywhere. -/
def dC1 : Dataset := ⟨["m1", "m2"], [rowA1, rowB1]⟩

/-- Two rows, `M` defined for `A` only. -/
def dC2 : Dataset := ⟨["M"], [⟨"A", [("M", some 1)]⟩, ⟨"B", [("M", none)]⟩]⟩

/-- One row, the column `M` present but NaN everywhere. -/
def dC3 : Dataset := ⟨["M"], [⟨"A", [("M", none)]⟩]⟩

/-- Row `A` of `dDeg`: `M = 5`. -/
def rowDegA : Row := ⟨"A", [("M", some 5)]⟩

/-- Row `B` of `dDeg`: `M = 5`. -/
def rowDegB : Row := ⟨"B", [("M", some 5)]⟩

/-- A zero-variance dataset: `M` is `5` in both rows. -/
def dDeg : Dataset := ⟨["M"], [rowDegA, rowDegB]⟩

/-- Row `A` of `dC5`: `M = 0`. -/
def rowC5A : Row := ⟨"A", [("M", some 0)]⟩

/-- Row `B` of `dC5`: `M = 10`. -/
def rowC5B : Row := ⟨"B", [("M", some 10)]⟩

/-- Two rows with distinct defined values for `M`. -/
def dC5 : Dataset := ⟨["M"], [rowC5A, rowC5B]⟩

/-- A dataset that already carries an `aggregate_score` column. -/
def dC9 : Dataset :=
  ⟨["m1", "aggregate_score"],
   [⟨"A", [("m1", some 0), ("aggregate_score", some 5)]⟩,
    ⟨"B", [("m1", some 10), ("aggregate_score", some 0)]⟩]⟩

/-- A state row of `dC8` with the same value `v` for all five metrics. -/
def mkStateRow (s : String) (v : ℚ) : Row :=
  ⟨s, metrics_list.map (fun m => (m, some v))⟩

/-- Six states whose aggregate top five is disjoint from `impactStates`. -/
def dC8 : Dataset :=
  ⟨metrics_list,
   [mkStateRow "TX" 90, mkStateRow "CA" 80, mkStateRow "NY" 70,
    mkStateRow "FL" 60, mkStateRow "WA" 50, mkStateRow "MS" 10]⟩

/- Helper lemmas about rows and column assignment. -/

theorem Row.state_setCell (r : Row) (c : String) (v : Val) :
    (r.setCell c v).state = r.state := rfl

theorem lookup_eraseP_ne (c cQ : String) (hne : cQ ≠ c) :
    ∀ l : List (String × Val), (l.eraseP (fun p => p.1 == c)).lookup cQ = l.lookup cQ := by
  intro l
  induction l with
  | nil => rfl
  | cons a t ih =>
    by_cases hac : a.1 = c
    · rw [List.eraseP_cons_of_pos (by simpa using hac)]
      have : (cQ == a.1) = false := by
        simp [hac]
        exact hne
      simp [List.lookup, this]
    · have hnp : (a.1 == c) = false := by simpa using hac
      simp only [List.eraseP_cons, hnp]
      by_cases hqa : cQ = a.1
      · simp [List.lookup, hqa]
      · have : (cQ == a.1) = false := by simpa using hqa
        simp [List.lookup, this, ih]

theorem Row.get_setCell_self (r : Row) (c : String) (v : Val) :
    (r.setCell c v).get c = v := by
  simp [Row.get, Row.setCell, List.lookup]

theorem Row.get_setCell_ne (r : Row) (c cQ : String) (v : Val) (hne : cQ ≠ c) :
    (r.setCell c v).get cQ = r.get cQ := by
  have : (cQ == c) = false := by simpa using hne
  simp [Row.get, Row.setCell, List.lookup, this, lookup_eraseP_ne c cQ hne]

theorem Row.setCell_setCell (r : Row) (c : String) (v w : Val) :
    (r.setCell c v).setCell c w = r.setCell c w := by
  simp [Row.setCell, List.eraseP_cons_of_pos]

theorem zipSet_get_ne (c cQ : String) (hne : cQ ≠ c) :
    ∀ (rows : List Row) (vs : List Val), vs.length = rows.length →
      ((rows.zip vs).map (fun p => p.1.setCell c p.2)).map (fun r => r.get cQ) =
        rows.map (fun r => r.get cQ) := by
  intro rows
  induction rows with
  | nil => intro vs _; rfl
  | cons r t ih =>
    intro vs hlen
    cases vs with
    | nil => simp at hlen
    | cons v vt =>
      simp only [List.zip_cons_cons, List.map_cons]
      rw [Row.get_setCell_ne r c cQ v hne, ih vt (by simpa using hlen)]

theorem zipSet_get_self (c : String) :
    ∀ (rows : List Row) (vs : List Val), vs.length = rows.length →
      ((rows.zip vs).map (fun p => p.1.setCell c p.2)).map (fun r => r.get c) = vs := by
  intro rows
  induction rows with
  | nil => intro vs hlen; simp at hlen ⊢; simp [hlen]
  | cons r t ih =>
    intro vs hlen
    cases vs with
    | nil => simp at hlen
    | cons v vt =>
      simp only [List.zip_cons_cons, List.map_cons]
      rw [Row.get_setCell_self, ih vt (by simpa using hlen)]

theorem zipSet_state (c : String) :
    ∀ (rows : List Row) (vs : List Val), vs.length = rows.length →
      ((rows.zip vs).map (fun p => p.1.setCell c p.2)).map Row.state =
        rows.map Row.state := by
  intro rows
  induction rows with
  | nil => intro vs _; rfl
  | cons r t ih =>
    intro vs hlen
    cases vs with
    | nil => simp at hlen
    | cons v vt =>
      simp only [List.zip_cons_cons, List.map_cons]
      rw [ih vt (by simpa using hlen)]
      rfl

theorem setCol_colVals_ne (d : Dataset) (c cQ : String) (vs : List Val)
    (hlen : vs.length = d.rows.length) (hne : cQ ≠ c) :
    colVals (d.setCol c vs) cQ = colVals d cQ :=
  zipSet_get_ne c cQ hne d.rows vs hlen

theorem setCol_colVals_self (d : Dataset) (c : String) (vs : List Val)
    (hlen : vs.length = d.rows.length) :
    colVals (d.setCol c vs) c = vs :=
  zipSet_get_self c d.rows vs hlen

theorem setCol_states (d : Dataset) (c : String) (vs : List Val)
    (hlen : vs.length = d.rows.length) :
    (d.setCol c vs).rows.map Row.state = d.rows.map Row.state :=
  zipSet_state c d.rows vs hlen

theorem mem_setCol_columns (d : Dataset) (c cQ : String) (vs : List Val)
    (h : cQ ∈ d.columns) : cQ ∈ (d.setCol c vs).columns := by
  unfold Dataset.setCol
  dsimp only
  split
  · exact h
  · exact List.mem_append_left _ h

theorem self_mem_setCol_columns (d : Dataset) (c : String) (vs : List Val) :
    c ∈ (d.setCol c vs).columns := by
  unfold Dataset.setCol
  dsimp only
  split
  · assumption
  · exact List.mem_append_right _ (by simp)

/- Order-statistic lemmas for the sorted column. -/

theorem sortAsc_sorted (vs : List ℚ) : (sortAsc vs).Sorted (· ≤ ·) :=
  List.sorted_insertionSort (· ≤ ·) vs

theorem sortAsc_perm (vs : List ℚ) : (sortAsc vs).Perm vs :=
  List.perm_insertionSort (· ≤ ·) vs

theorem mem_sortAsc (vs : List ℚ) (x : ℚ) : x ∈ sortAsc vs ↔ x ∈ vs :=
  (sortAsc_perm vs).mem_iff

theorem sorted_head_le (s : List ℚ) (hs : s.Sorted (· ≤ ·)) (x : ℚ) (hx : x ∈ s)
    (mn : ℚ) (hhd : s.head? = some mn) : mn ≤ x := by
  cases s with
  | nil => cases hx
  | cons a t =>
    have ha : a = mn := by simpa using hhd
    subst ha
    rcases List.mem_cons.mp hx with h | h
    · exact h ▸ le_refl _
    · exact List.rel_of_sorted_cons hs x h

theorem sorted_le_getLast : ∀ s : List ℚ, s.Sorted (· ≤ ·) →
    ∀ mx : ℚ, s.getLast? = some mx → ∀ x ∈ s, x ≤ mx := by
  intro s
  induction s with
  | nil => intro _ mx _ x hx; cases hx
  | cons a t ih =>
    intro hs mx hlast x hx
    cases t with
    | nil =>
      have hxa : x = a := by simpa using hx
      have hma : a = mx := by simpa using hlast
      simp [hxa, ← hma]
    | cons b u =>
      rw [List.getLast?_cons_cons] at hlast
      rcases List.mem_cons.mp hx with h | h
      · subst h
        have hxb : x ≤ b := List.rel_of_sorted_cons hs b (by simp)
        have hbm : b ≤ mx := ih hs.of_cons mx hlast b (by simp)
        exact le_trans hxb hbm
      · exact ih hs.of_cons mx hlast x h

theorem minQ_le_of_mem (vs : List ℚ) (x : ℚ) (hx : x ∈ vs) :
    ∃ mn, minQ vs = some mn ∧ mn ≤ x := by
  have hxs : x ∈ sortAsc vs := (mem_sortAsc vs x).mpr hx
  cases hs : sortAsc vs with
  | nil => rw [hs] at hxs; cases hxs
  | cons a t =>
    refine ⟨a, by simp [minQ, hs], ?_⟩
    have := sortAsc_sorted vs
    rw [hs] at this hxs
    exact sorted_head_le _ this x hxs a rfl

theorem le_maxQ_of_mem (vs : List ℚ) (x : ℚ) (hx : x ∈ vs) :
    ∃ mx, maxQ vs = some mx ∧ x ≤ mx := by
  have hxs : x ∈ sortAsc vs := (mem_sortAsc vs x).mpr hx
  have hne : sortAsc vs ≠ [] := List.ne_nil_of_mem hxs
  refine ⟨(sortAsc vs).getLast hne, List.getLast?_eq_getLast _ hne, ?_⟩
  exact sorted_le_getLast _ (sortAsc_sorted vs) _ (List.getLast?_eq_getLast _ hne) x hxs

theorem mem_definedVals (d : Dataset) (m : String) (r : Row) (v : ℚ)
    (hr : r ∈ d.rows) (hv : r.get m = some v) : v ∈ definedVals d m := by
  unfold definedVals
  rw [List.reduceOption_mem_iff]
  exact List.mem_map.mpr ⟨r, hr, hv⟩

/- Bounds for the normalized cells and their mean. -/

theorem normCell_mem_unit (d : Dataset) (m : String) (r : Row) (t : ℚ)
    (hr : r ∈ d.rows) (ht : normCell d m r = some t) : 0 ≤ t ∧ t ≤ 1 := by
  unfold normCell at ht
  cases hg : r.get m with
  | none => rw [hg] at ht; cases ht
  | some v =>
    rw [hg] at ht
    cases hmn : colMin d m with
    | none => rw [hmn] at ht; cases ht
    | some mn =>
      rw [hmn] at ht
      cases hmx : colMax d m with
      | none => rw [hmx] at ht; cases ht
      | some mx =>
        rw [hmx] at ht
        by_cases hdeg : mx = mn
        · simp [hdeg] at ht
        · simp only [if_neg hdeg, Option.some.injEq] at ht
          have hvmem : v ∈ definedVals d m := mem_definedVals d m r v hr hg
          obtain ⟨mn2, hmn2, hle⟩ := minQ_le_of_mem (definedVals d m) v hvmem
          obtain ⟨mx2, hmx2, hge⟩ := le_maxQ_of_mem (definedVals d m) v hvmem
          have e1 : mn2 = mn := Option.some.inj (hmn2.symm.trans hmn)
          have e2 : mx2 = mx := Option.some.inj (hmx2.symm.trans hmx)
          rw [e1] at hle
          rw [e2] at hge
          have hlt : mn < mx := lt_of_le_of_ne (le_trans hle hge) (Ne.symm hdeg)
          have hpos : 0 < mx - mn := sub_pos.mpr hlt
          constructor
          · rw [← ht]
            exact div_nonneg (sub_nonneg.mpr hle) (le_of_lt hpos)
          · rw [← ht]
            rw [div_le_one hpos]
            exact sub_le_sub_right hge mn

theorem meanQ_eq (vs : List ℚ) (h : vs ≠ []) :
    meanQ vs = some (vs.sum / vs.length) := by
  unfold meanQ
  rw [if_neg (by simpa [List.isEmpty_iff] using h)]

theorem sum_between (mn mx : ℚ) : ∀ l : List ℚ, (∀ x ∈ l, mn ≤ x ∧ x ≤ mx) →
    (l.length : ℚ) * mn ≤ l.sum ∧ l.sum ≤ (l.length : ℚ) * mx := by
  intro l
  induction l with
  | nil => simp
  | cons a t ih =>
    intro h
    have ha := h a (by simp)
    have ht := ih (fun x hx => h x (by simp [hx]))
    simp only [List.sum_cons, List.length_cons]
    push_cast
    constructor
    · nlinarith [ht.1, ha.1]
    · nlinarith [ht.2, ha.2]

theorem mean_between (mn mx : ℚ) (l : List ℚ) (hne : l ≠ [])
    (h : ∀ x ∈ l, mn ≤ x ∧ x ≤ mx) :
    mn ≤ l.sum / l.length ∧ l.sum / l.length ≤ mx := by
  have hlen : 0 < (l.length : ℚ) := by
    exact_mod_cast List.length_pos.mpr hne
  obtain ⟨h1, h2⟩ := sum_between mn mx l h
  constructor
  · rw [le_div_iff₀ hlen]
    linarith
  · rw [div_le_iff₀ hlen]
    linarith

theorem medianQ_avg (vs : List ℚ) (hne : vs ≠ []) :
    ∃ a b, a ∈ sortAsc vs ∧ b ∈ sortAsc vs ∧ medianQ vs = some ((a + b) / 2) := by
  have hpos : 0 < (sortAsc vs).length := by
    rw [(sortAsc_perm vs).length_eq]
    exact List.length_pos.mpr hne
  unfold medianQ
  by_cases hodd : (sortAsc vs).length % 2 = 1
  · rw [if_pos hodd]
    have hk : (sortAsc vs).length / 2 < (sortAsc vs).length := Nat.div_lt_self hpos one_lt_two
    rw [List.get?_eq_get hk]
    refine ⟨(sortAsc vs).get ⟨_, hk⟩, (sortAsc vs).get ⟨_, hk⟩,
      List.get_mem _ _ _, List.get_mem _ _ _, ?_⟩
    congr 1
    ring
  · rw [if_neg hodd]
    have hk : (sortAsc vs).length / 2 < (sortAsc vs).length := Nat.div_lt_self hpos one_lt_two
    have hk1 : (sortAsc vs).length / 2 - 1 < (sortAsc vs).length := by omega
    rw [List.get?_eq_get hk1, List.get?_eq_get hk]
    exact ⟨_, _, List.get_mem _ _ _, List.get_mem _ _ _, rfl⟩

theorem rowScore_mem_unit (d : Dataset) (ms : List String) (r : Row) (q : ℚ)
    (hr : r ∈ d.rows) (hq : rowScore d ms r = some q) : 0 ≤ q ∧ q ≤ 1 := by
  unfold rowScore meanQ at hq
  by_cases hemp : (ms.filterMap (fun m => normCell d m r)).isEmpty
  · rw [if_pos hemp] at hq
    cases hq
  · rw [if_neg hemp] at hq
    have hne : ms.filterMap (fun m => normCell d m r) ≠ [] := by
      simpa [List.isEmpty_iff] using hemp
    have hb : ∀ x ∈ ms.filterMap (fun m => normCell d m r), 0 ≤ x ∧ x ≤ 1 := by
      intro x hx
      obtain ⟨m, _, hcell⟩ := List.mem_filterMap.mp hx
      exact normCell_mem_unit d m r x hr hcell
    have hmean := mean_between 0 1 _ hne hb
    rw [Option.some.inj hq] at hmean
    exact hmean

/- Equivalence of the source's row score with the specification's formula,
away from zero-variance metrics. -/

theorem filterMap_normCell_eq (d : Dataset) (ms : List String) (r : Row)
    (hr : r ∈ d.rows)
    (h : ∀ m ∈ ms, colMin d m = colMax d m → colMin d m = none) :
    ms.filterMap (fun m => normCell d m r) =
      (definedMetrics ms r).map (fun m => (specNormalized d m r).getD 0) := by
  induction ms with
  | nil => rfl
  | cons m tl ih =>
    have htl := ih (fun x hx hc => h x (by simp [hx]) hc)
    by_cases hg : (r.get m).isSome
    · obtain ⟨v, hv⟩ := Option.isSome_iff_exists.mp hg
      have hvmem := mem_definedVals d m r v hr hv
      obtain ⟨mn, hmn, hle⟩ := minQ_le_of_mem _ v hvmem
      obtain ⟨mx, hmx, hge⟩ := le_maxQ_of_mem _ v hvmem
      have hmn2 : colMin d m = some mn := hmn
      have hmx2 : colMax d m = some mx := hmx
      have hdeg : mx ≠ mn := by
        intro hc
        have hcc : colMin d m = colMax d m := by rw [hmn2, hmx2, hc]
        have := h m (by simp) hcc
        rw [hmn2] at this
        cases this
      have hnc : normCell d m r = some ((v - mn) / (mx - mn)) := by
        unfold normCell
        rw [hv, hmn2, hmx2]
        simp [hdeg]
      have hsn : specNormalized d m r = some ((v - mn) / (mx - mn)) := by
        unfold specNormalized
        rw [hv, hmn2, hmx2]
      have hdm : definedMetrics (m :: tl) r = m :: definedMetrics tl r := by
        unfold definedMetrics
        rw [List.filter_cons_of_pos (by simpa using hg)]
      rw [hdm, List.map_cons, hsn, ← htl]
      simp only [List.filterMap_cons, hnc, Option.getD_some]
    · have hgn : r.get m = none := Option.not_isSome_iff_eq_none.mp (by simpa using hg)
      have hnc : normCell d m r = none := by
        unfold normCell
        rw [hgn]
      have hdm : definedMetrics (m :: tl) r = definedMetrics tl r := by
        unfold definedMetrics
        rw [List.filter_cons_of_neg (by simpa using hg)]
      rw [hdm, ← htl]
      simp only [List.filterMap_cons, hnc]

theorem rowScore_eq_spec (d : Dataset) (ms : List String) (r : Row)
    (hr : r ∈ d.rows)
    (h : ∀ m ∈ ms, colMin d m = colMax d m → colMin d m = none) :
    rowScore d ms r = specRowScore d ms r := by
  unfold rowScore specRowScore
  rw [filterMap_normCell_eq d ms r hr h]
  by_cases hdm : definedMetrics ms r = []
  · simp [hdm, meanQ]
  · simp [meanQ, List.isEmpty_iff, hdm]

/- Lemmas about the `sort_values` model. -/

theorem definedPairs_add_undefPairs_length : ∀ ps : List (String × Val),
    (definedPairs ps).length + (undefPairs ps).length = ps.length := by
  intro ps
  induction ps with
  | nil => rfl
  | cons p t ih =>
    cases hp : p.2 with
    | none =>
      simp only [definedPairs, undefPairs, List.filterMap_cons, List.filter_cons, hp] at ih ⊢
      simp only [Option.map_none', Option.isNone_none, if_pos]
      simpa [List.length_cons] using by omega
    | some v =>
      simp only [definedPairs, undefPairs, List.filterMap_cons, List.filter_cons, hp] at ih ⊢
      simp [List.length_cons]
      omega

theorem sort_values_head_length (d : Dataset) (m : String) (n : Nat) :
    (sort_values_head d m n).length = min n d.rows.length := by
  unfold sort_values_head
  rw [List.length_take, List.length_append, List.length_map,
    (List.perm_insertionSort byScoreDesc _).length_eq]
  have h := definedPairs_add_undefPairs_length (statePairs d m)
  have h2 : (statePairs d m).length = d.rows.length := List.length_map _ _
  omega

theorem sort_values_head_sorted (d : Dataset) (m : String) (n : Nat) :
    ((sort_values_head d m n).filterMap (fun p => p.2)).Pairwise (fun a b : ℚ => b ≤ a) := by
  have hundef : (undefPairs (statePairs d m)).filterMap (fun p => p.2) = [] := by
    rw [List.filterMap_eq_nil_iff]
    intro p hp
    have := (List.mem_filter.mp hp).2
    exact Option.isNone_iff_eq_none.mp this
  have hdef : (((definedPairs (statePairs d m)).insertionSort byScoreDesc).map
      (fun p => (p.1, some p.2))).filterMap (fun p => p.2) =
      ((definedPairs (statePairs d m)).insertionSort byScoreDesc).map (fun p => p.2) := by
    rw [List.filterMap_map]
    have : ((fun p : String × Val => p.2) ∘ fun p : String × ℚ => (p.1, some p.2)) =
        (some ∘ fun p : String × ℚ => p.2) := rfl
    rw [this, List.filterMap_eq_map]
  have hsorted : (((definedPairs (statePairs d m)).insertionSort byScoreDesc).map
      (fun p => p.2)).Pairwise (fun a b : ℚ => b ≤ a) := by
    rw [List.pairwise_map]
    exact List.sorted_insertionSort byScoreDesc _
  have hsub : ((sort_values_head d m n).filterMap (fun p => p.2)).Sublist
      (((((definedPairs (statePairs d m)).insertionSort byScoreDesc).map
        (fun p => (p.1, some p.2))) ++ undefPairs (statePairs d m)).filterMap (fun p => p.2)) :=
    List.Sublist.filterMap _ (List.take_sublist _ _)
  rw [List.filterMap_append, hundef, hdef, List.append_nil] at hsub
  exact List.Pairwise.sublist hsub hsorted

/- Congruence and stability lemmas for repeated application of
`get_priority_states`. -/

theorem normCell_congr (d1 d2 : Dataset) (m : String) (r1 r2 : Row)
    (hcv : colVals d2 m = colVals d1 m) (hg : r2.get m = r1.get m) :
    normCell d2 m r2 = normCell d1 m r1 := by
  unfold normCell colMin colMax definedVals
  rw [hcv, hg]

theorem rowScore_congr (d1 d2 : Dataset) (ms : List String) (r1 r2 : Row)
    (h : ∀ m ∈ ms, normCell d2 m r2 = normCell d1 m r1) :
    rowScore d2 ms r2 = rowScore d1 ms r1 := by
  unfold rowScore
  rw [List.filterMap_congr h]

theorem zipSet_twice (c : String) : ∀ (rows : List Row) (vs ws : List Val),
    vs.length = rows.length →
    ((((rows.zip vs).map (fun p => p.1.setCell c p.2)).zip ws).map
      (fun p => p.1.setCell c p.2)) = (rows.zip ws).map (fun p => p.1.setCell c p.2) := by
  intro rows
  induction rows with
  | nil => intro vs ws _; rfl
  | cons r t ih =>
    intro vs ws hlen
    cases vs with
    | nil => simp at hlen
    | cons v vt =>
      cases ws with
      | nil => rfl
      | cons w wt =>
        simp only [List.zip_cons_cons, List.map_cons]
        rw [Row.setCell_setCell, ih vt wt (by simpa using hlen)]

theorem setCol_setCol (d : Dataset) (c : String) (vs ws : List Val)
    (hlen : vs.length = d.rows.length) :
    (d.setCol c vs).setCol c ws = d.setCol c ws := by
  have hc : c ∈ (d.setCol c vs).columns := self_mem_setCol_columns d c vs
  show Dataset.mk _ _ = Dataset.mk _ _
  congr 1
  · rw [if_pos hc]
    rfl
  · exact zipSet_twice c d.rows vs ws hlen

theorem setCol_rowScore_stable (d : Dataset) (ms : List String) (c : String)
    (hc : c ∉ ms) (vs : List Val) (hlen : vs.length = d.rows.length) :
    (d.setCol c vs).rows.map (rowScore (d.setCol c vs) ms) = d.rows.map (rowScore d ms) := by
  have hrows : (d.setCol c vs).rows = (d.rows.zip vs).map (fun p => p.1.setCell c p.2) := rfl
  rw [hrows, List.map_map]
  have hpt : ∀ p ∈ d.rows.zip vs,
      (rowScore (d.setCol c vs) ms ∘ fun q => q.1.setCell c q.2) p =
        (rowScore d ms ∘ Prod.fst) p := by
    intro p _
    show rowScore (d.setCol c vs) ms (p.1.setCell c p.2) = rowScore d ms p.1
    apply rowScore_congr
    intro m hm
    have hmc : m ≠ c := fun hmc => hc (hmc ▸ hm)
    exact normCell_congr d (d.setCol c vs) m p.1 (p.1.setCell c p.2)
      (setCol_colVals_ne d c m vs hlen hmc)
      (Row.get_setCell_ne p.1 c m p.2 hmc)
  rw [List.map_congr_left hpt, ← List.map_map (rowScore d ms) Prod.fst,
    List.map_fst_zip d.rows vs (le_of_eq hlen.symm)]

/- Claim theorems. -/

/-- C1, counterexample: the claim fails as stated.  In `dC1` row `B` has a
defined value for both requested metrics (`definedMetrics` has length 2),
yet the source's score averages a single term — the zero-variance metric
`m2` normalizes to NaN and is dropped by the NaN-skipping mean — so the
divisor is 1, not the claimed count of defined metrics, and the code's
score `1` differs from the specification formula's score `1/2`. -/
theorem C1_counterexample :
    rowScore dC1 ["m1", "m2"] rowB1 = some 1 ∧
    specRowScore dC1 ["m1", "m2"] rowB1 = some (1 / 2) ∧
    (["m1", "m2"].filterMap (fun m => normCell dC1 m rowB1)).length = 1 ∧
    (definedMetrics ["m1", "m2"] rowB1).length = 2 :=
  ⟨by with_unfolding_all rfl, by with_unfolding_all rfl,
   by with_unfolding_all rfl, by decide⟩

/-- C1 (amended): for every row of the dataset, provided no requested
metric is degenerate (a metric whose defined values have `min = max`),
the source's aggregate score equals the specification's formula: each
defined metric contributes `(value - min) / (max - min)` and the final
score is the arithmetic mean over exactly the metrics defined for the
row (the divisor is the count of metrics defined for that row). -/
theorem C1_rowScore_spec (d : Dataset) (ms : List String) (r : Row)
    (hr : r ∈ d.rows)
    (hnd : ∀ m ∈ ms, colMin d m = colMax d m → colMin d m = none) :
    rowScore d ms r = specRowScore d ms r :=
  rowScore_eq_spec d ms r hr hnd

/-- C1, witness: the amended theorem applied to `dC5` and row `A`. -/
theorem C1_witness :
    (rowC5A ∈ dC5.rows ∧
      (∀ m ∈ ["M"], colMin dC5 m = colMax dC5 m → colMin dC5 m = none)) ∧
    rowScore dC5 ["M"] rowC5A = specRowScore dC5 ["M"] rowC5A :=
  ⟨⟨by decide, by decide⟩, C1_rowScore_spec dC5 ["M"] rowC5A (by decide) (by decide)⟩

/-- C2, counterexample: rows with an undefined value are not excluded.
In `dC2` only one row has a defined value for `M`, yet
`sort_values(...).head(2)` returns two rows, the NaN row placed last —
more than the claimed bound `min(n, count of defined rows) = 1`. -/
theorem C2_counterexample :
    sort_values_head dC2 "M" 2 = [("A", some 1), ("B", none)] ∧
    (definedVals dC2 "M").length = 1 :=
  ⟨by decide, by decide⟩

/-- C2 (amended): for a valid column, the ranking succeeds and returns the
first `n` of: the defined rows sorted descending by value (stable ties),
followed by the NaN rows in original order — hence exactly
`min(n, total row count)` pairs (NaN rows included at the end, not
excluded), with the defined values in the output in descending order;
`n` exceeding the row count is truncated without error. -/
theorem C2_rankings_spec (d : Dataset) (m : String) (n : Nat) (h : m ∈ d.columns) :
    rankings d m n = .ok (sort_values_head d m n) ∧
    (sort_values_head d m n).length = min n d.rows.length ∧
    ((sort_values_head d m n).filterMap (fun p => p.2)).Pairwise (fun a b : ℚ => b ≤ a) := by
  refine ⟨?_, sort_values_head_length d m n, sort_values_head_sorted d m n⟩
  unfold rankings
  rw [if_pos h]

/-- C2, witness: the amended theorem applied to `dC2` with `n = 3`. -/
theorem C2_witness :
    "M" ∈ dC2.columns ∧
    (rankings dC2 "M" 3 = .ok (sort_values_head dC2 "M" 3) ∧
      (sort_values_head dC2 "M" 3).length = min 3 dC2.rows.length ∧
      ((sort_values_head dC2 "M" 3).filterMap (fun p => p.2)).Pairwise
        (fun a b : ℚ => b ≤ a)) :=
  ⟨by decide, C2_rankings_spec dC2 "M" 3 (by decide)⟩

/-- C3, counterexample: when the column exists but no row has a defined
value, `describe()` does not fail with an `EmptyMetric` error — it
returns a summary whose four fields are all NaN. -/
theorem C3_counterexample :
    stats dC3 "M" = .ok ⟨none, none, none, none⟩ ∧ definedVals dC3 "M" = [] :=
  ⟨rfl, rfl⟩

/-- C3 (amended): a metric name that is not a column fails (`KeyError`),
and a metric with at least one defined value yields a summary with all
four fields defined, computed over the defined rows; but a present,
all-NaN metric yields a NaN-valued summary instead of a failure. -/
theorem C3_stats_spec (d : Dataset) (m mq : String) (hm : m ∈ d.columns)
    (hne : definedVals d m ≠ []) (hmq : mq ∉ d.columns) :
    (∃ av md mn mx : ℚ, stats d m = .ok ⟨some av, some md, some mn, some mx⟩) ∧
    stats d mq = .error () := by
  constructor
  · obtain ⟨x, hx⟩ := List.exists_mem_of_ne_nil _ hne
    obtain ⟨mn, hmn, _⟩ := minQ_le_of_mem _ x hx
    obtain ⟨mx, hmx, _⟩ := le_maxQ_of_mem _ x hx
    obtain ⟨a, b, _, _, hmed⟩ := medianQ_avg _ hne
    refine ⟨(definedVals d m).sum / (definedVals d m).length, (a + b) / 2, mn, mx, ?_⟩
    unfold stats
    rw [if_pos hm, meanQ_eq _ hne, hmed, hmn, hmx]
  · unfold stats
    rw [if_neg hmq]

/-- C3, witness: the amended theorem applied to `dC5` with the valid
column `M` and the unknown column name `nope`. -/
theorem C3_witness :
    ("M" ∈ dC5.columns ∧ definedVals dC5 "M" ≠ [] ∧ "nope" ∉ dC5.columns) ∧
    ((∃ av md mn mx : ℚ, stats dC5 "M" = .ok ⟨some av, some md, some mn, some mx⟩) ∧
      stats dC5 "nope" = .error ()) :=
  ⟨⟨by decide, by decide, by decide⟩,
    C3_stats_spec dC5 "M" "nope" (by decide) (by decide) (by decide)⟩

/-- C4, counterexample: on the zero-variance dataset `dDeg` the priority
computation does not fail with any `DegenerateMetric` error and no
opt-in policy exists; it succeeds and silently propagates NaN — every
row's aggregate score is undefined. -/
theorem C4_counterexample :
    colMin dDeg "M" = some 5 ∧ colMax dDeg "M" = some 5 ∧
    (get_priority_states dDeg ["M"]).toOption.map (fun p => p.2) =
      some [("A", none), ("B", none)] :=
  ⟨by decide, by decide, by decide⟩

/-- C4 (amended): a zero-variance metric (`min = max` over its defined
values, including the all-NaN case) is silently suppressed: its
normalized cell is NaN for every row, so it contributes no term to any
row's mean and no error is ever raised. -/
theorem C4_degenerate_silent (d : Dataset) (m : String) (r : Row)
    (h : colMin d m = colMax d m) : normCell d m r = none := by
  unfold normCell
  cases hgm : r.get m with
  | none => rfl
  | some v =>
    cases hmn : colMin d m with
    | none =>
      have hmx : colMax d m = none := by rw [← h, hmn]
      rw [hmx]
    | some mn =>
      have hmx : colMax d m = some mn := by rw [← h, hmn]
      rw [hmx]
      simp

/-- C4, witness: the amended theorem applied to `dDeg` and its row `A`. -/
theorem C4_witness :
    colMin dDeg "M" = colMax dDeg "M" ∧ normCell dDeg "M" rowDegA = none :=
  ⟨by decide, C4_degenerate_silent dDeg "M" rowDegA (by decide)⟩

/-- C5, counterexample: `get_priority_states` mutates its input — it
returns the argument dataframe with a new `aggregate_score` column
written into it, a dataset different from the one passed in. -/
theorem C5_counterexample :
    (get_priority_states dC5 ["M"]).toOption.map Prod.fst =
      some (dC5.setCol "aggregate_score" [some 0, some 1]) ∧
    dC5.setCol "aggregate_score" [some 0, some 1] ≠ dC5 :=
  ⟨by with_unfolding_all rfl, by decide⟩

/-- C5 (amended): the mutation performed by `get_priority_states` is
confined to the `aggregate_score` column: the state identifiers and
every other column of the dataset are unchanged (and `rankings` and
`stats` return derived values without touching the dataset at all). -/
theorem C5_frame (d : Dataset) (ms : List String) (d2 : Dataset)
    (out : List (String × Val)) (c : String) (hc : c ≠ "aggregate_score")
    (h : get_priority_states d ms = .ok (d2, out)) :
    d2.rows.map Row.state = d.rows.map Row.state ∧ colVals d2 c = colVals d c := by
  unfold get_priority_states at h
  by_cases hcols : ∀ m ∈ ms, m ∈ d.columns
  · rw [if_pos hcols] at h
    simp only [Except.ok.injEq, Prod.mk.injEq] at h
    obtain ⟨hd2, hout⟩ := h
    have hlen : (d.rows.map (rowScore d ms)).length = d.rows.length := List.length_map _ _
    subst hd2
    exact ⟨setCol_states d _ _ hlen, setCol_colVals_ne d _ c _ hlen hc⟩
  · rw [if_neg hcols] at h
    cases h

/-- C5, witness: the amended theorem applied to `dC5` and column `M`. -/
theorem C5_witness :
    ("M" ≠ "aggregate_score" ∧
      get_priority_states dC5 ["M"] =
        .ok (dC5.setCol "aggregate_score" [some 0, some 1],
          [("B", some 1), ("A", some 0)])) ∧
    ((dC5.setCol "aggregate_score" [some 0, some 1]).rows.map Row.state =
        dC5.rows.map Row.state ∧
      colVals (dC5.setCol "aggregate_score" [some 0, some 1]) "M" = colVals dC5 "M") :=
  ⟨⟨by decide, by with_unfolding_all rfl⟩,
    C5_frame dC5 ["M"] _ _ "M" (by decide) (by with_unfolding_all rfl)⟩

/-- C6, counterexample: in `dDeg` row `A` has a defined value for the
requested metric `M`, yet its aggregate score is NaN (not a value in
`[0, 1]`), because the only defined metric has zero variance and its
normalization is NaN. -/
theorem C6_counterexample :
    rowDegA ∈ dDeg.rows ∧ rowDegA.get "M" = some 5 ∧
    rowScore dDeg ["M"] rowDegA = none :=
  ⟨by decide, by decide, by decide⟩

/-- C6 (amended): whenever a row's aggregate score is defined — that is,
the row has at least one contributing metric: defined for the row and
not of zero variance — the score lies in the closed interval `[0, 1]`. -/
theorem C6_score_unit_interval (d : Dataset) (ms : List String) (r : Row) (q : ℚ)
    (hr : r ∈ d.rows) (hq : rowScore d ms r = some q) : 0 ≤ q ∧ q ≤ 1 :=
  rowScore_mem_unit d ms r q hr hq

/-- C6, witness: the amended theorem applied to `dC5` and row `B`. -/
theorem C6_witness :
    (rowC5B ∈ dC5.rows ∧ rowScore dC5 ["M"] rowC5B = some 1) ∧
    (0 ≤ (1 : ℚ) ∧ (1 : ℚ) ≤ 1) :=
  ⟨⟨by decide, by with_unfolding_all rfl⟩,
    C6_score_unit_interval dC5 ["M"] rowC5B 1 (by decide) (by with_unfolding_all rfl)⟩

/-- C7: for a metric column with at least one defined value, the summary
satisfies `min ≤ median ≤ max` and the mean lies within `[min, max]`. -/
theorem C7_summary_bounds (d : Dataset) (m : String) (hm : m ∈ d.columns)
    (hne : definedVals d m ≠ []) :
    ∃ av md mn mx : ℚ, stats d m = .ok ⟨some av, some md, some mn, some mx⟩ ∧
      mn ≤ md ∧ md ≤ mx ∧ mn ≤ av ∧ av ≤ mx := by
  obtain ⟨x, hx⟩ := List.exists_mem_of_ne_nil _ hne
  obtain ⟨mn, hmn, _⟩ := minQ_le_of_mem _ x hx
  obtain ⟨mx, hmx, _⟩ := le_maxQ_of_mem _ x hx
  obtain ⟨a, b, ha, hb, hmed⟩ := medianQ_avg _ hne
  have hbound : ∀ y ∈ sortAsc (definedVals d m), mn ≤ y ∧ y ≤ mx := by
    intro y hy
    have hyv : y ∈ definedVals d m := (mem_sortAsc _ y).mp hy
    obtain ⟨mn2, hmn2, h1⟩ := minQ_le_of_mem _ y hyv
    obtain ⟨mx2, hmx2, h2⟩ := le_maxQ_of_mem _ y hyv
    rw [Option.some.inj (hmn2.symm.trans hmn)] at h1
    rw [Option.some.inj (hmx2.symm.trans hmx)] at h2
    exact ⟨h1, h2⟩
  have hvbound : ∀ y ∈ definedVals d m, mn ≤ y ∧ y ≤ mx := fun y hy =>
    hbound y ((mem_sortAsc _ y).mpr hy)
  have hmean := mean_between mn mx _ hne hvbound
  have hab1 := hbound a ha
  have hab2 := hbound b hb
  refine ⟨(definedVals d m).sum / (definedVals d m).length, (a + b) / 2, mn, mx,
    ?_, ?_, ?_, hmean.1, hmean.2⟩
  · unfold stats
    rw [if_pos hm, meanQ_eq _ hne, hmed, hmn, hmx]
  · have h1 := hab1.1
    have h2 := hab2.1
    linarith
  · have h1 := hab1.2
    have h2 := hab2.2
    linarith

/-- C7, witness: the theorem applied to `dC5` and column `M`. -/
theorem C7_witness :
    ("M" ∈ dC5.columns ∧ definedVals dC5 "M" ≠ []) ∧
    (∃ av md mn mx : ℚ, stats dC5 "M" = .ok ⟨some av, some md, some mn, some mx⟩ ∧
      mn ≤ md ∧ md ≤ mx ∧ mn ≤ av ∧ av ≤ mx) :=
  ⟨⟨by decide, by decide⟩, C7_summary_bounds dC5 "M" (by decide) (by decide)⟩

/-- C8: the two priority cohorts are independent computations and differ on
a concrete dataset: on `dC8` the aggregate-score top five is
`TX, CA, NY, FL, WA`, while the impact-analysis filter hardcodes
`MS, WV, LA, DE, AL` — `TX` is in the computed cohort but not the
hardcoded one, and `MS` conversely. -/
theorem C8_divergence :
    (get_priority_states dC8 metrics_list).toOption.map (fun p => p.2.map Prod.fst) =
      some ["TX", "CA", "NY", "FL", "WA"] ∧
    "TX" ∉ impactStates ∧ "MS" ∈ impactStates :=
  ⟨by with_unfolding_all rfl, by decide, by decide⟩

/-- C9, counterexample: the operations are not free of hidden state.  With
the (valid) column `aggregate_score` among the requested metrics, the
first call's in-place mutation changes what the second call computes:
on `dC9` the first call ranks both rows at `1/2`, the repeated call on
the same (mutated) dataframe ranks `B` at `1` and `A` at `0`. -/
theorem C9_counterexample :
    (get_priority_states dC9 ["m1", "aggregate_score"]).toOption.map Prod.snd =
      some [("A", some (1 / 2)), ("B", some (1 / 2))] ∧
    ((get_priority_states dC9 ["m1", "aggregate_score"]).toOption.bind
      (fun p => (get_priority_states p.1 ["m1", "aggregate_score"]).toOption)).map
        Prod.snd = some [("B", some 1), ("A", some 0)] :=
  ⟨by with_unfolding_all rfl, by with_unfolding_all rfl⟩

/-- C9 (amended): provided the reserved column name `aggregate_score` is
not among the requested metrics, the computation is idempotent: calling
`get_priority_states` again on the dataframe returned by a first call
yields the identical dataframe and the identical ranking. -/
theorem C9_idempotent (d : Dataset) (ms : List String) (d2 : Dataset)
    (out : List (String × Val)) (hms : "aggregate_score" ∉ ms)
    (h : get_priority_states d ms = .ok (d2, out)) :
    get_priority_states d2 ms = .ok (d2, out) := by
  unfold get_priority_states at h ⊢
  by_cases hcols : ∀ m ∈ ms, m ∈ d.columns
  · rw [if_pos hcols] at h
    simp only [Except.ok.injEq, Prod.mk.injEq] at h
    obtain ⟨hd2, hout⟩ := h
    rw [hd2] at hout
    have hlen : (d.rows.map (rowScore d ms)).length = d.rows.length := List.length_map _ _
    have hcols2 : ∀ m ∈ ms, m ∈ d2.columns := by
      intro m hm
      rw [← hd2]
      exact mem_setCol_columns d "aggregate_score" m _ (hcols m hm)
    rw [if_pos hcols2]
    have hscores : d2.rows.map (rowScore d2 ms) = d.rows.map (rowScore d ms) := by
      rw [← hd2]
      exact setCol_rowScore_stable d ms "aggregate_score" hms _ hlen
    have hset : d2.setCol "aggregate_score" (d2.rows.map (rowScore d2 ms)) = d2 := by
      rw [hscores, ← hd2]
      exact setCol_setCol d "aggregate_score" _ _ hlen
    rw [hset, hout]
  · rw [if_neg hcols] at h
    cases h

/-- C9, witness: the amended theorem applied to `dC5`: repeating the call
on the returned dataframe reproduces the same dataframe and ranking. -/
theorem C9_witness :
    ("aggregate_score" ∉ ["M"] ∧
      get_priority_states dC5 ["M"] =
        .ok (dC5.setCol "aggregate_score" [some 0, some 1],
          [("B", some 1), ("A", some 0)])) ∧
    get_priority_states (dC5.setCol "aggregate_score" [some 0, some 1]) ["M"] =
      .ok (dC5.setCol "aggregate_score" [some 0, some 1],
        [("B", some 1), ("A", some 0)]) :=
  ⟨⟨by decide, by with_unfolding_all rfl⟩,
    C9_idempotent dC5 ["M"] _ _ (by decide) (by with_unfolding_all rfl)⟩

/-- C10: evaluating the script's top level aborts with a `NameError` on
`merged_map_extended` at the priority-states assignment (line 114): the
loaded dataset is bound to `merged_map`, while `merged_map_extended` is
read there (and again at line 138) but assigned nowhere in the
program. -/
theorem C10_name_error :
    runScript dashboardScript [] = .error "merged_map_extended" ∧
    "merged_map_extended" ∉ assignedNames dashboardScript ∧
    "merged_map" ∈ assignedNames dashboardScript :=
  ⟨rfl, by decide, by decide⟩
